import Mathlib

/-!
Shallow embedding of the risk-scoring core of the PhysioApp repository
(`src/services/assessmentService.ts`): `checkRedFlags`, `assessRiskLevel`,
`processAssessmentData` and the text-generation helpers.

JavaScript dynamic objects are embedded as Lean structures with `Option`
fields: `none` models an absent key, and the JS patterns `x || {}`,
`x || []`, `parseInt(x) || 0` become `Option.getD` with the corresponding
neutral default.  Each `if (cond) { riskScore += w; riskFactors.push(f) }`
block of `assessRiskLevel` is one entry of `ruleList`, in source order;
the score is the sum of the weights and the factors the concatenation of
the pushed strings, exactly as the sequential JS accumulation produces.
-/

/-- `answers.screening_questions` object: the ten red-flag yes/no questions
plus `accident_cause`.  `none` models an absent key. -/
structure ScreeningAnswers where
  weight_loss : Option String := none
  corticosteroids : Option String := none
  constant_pain : Option String := none
  cancer_history : Option String := none
  general_symptoms : Option String := none
  night_pain : Option String := none
  weight_bearing : Option String := none
  neurological_symptoms : Option String := none
  bowel_bladder : Option String := none
  fever : Option String := none
  accident_cause : Option String := none
deriving DecidableEq

/-- `answers.symptom_onset` object.  `pain_level = none` models an absent or
non-numeric value (JS `parseInt(...) || 0` yields 0 there). -/
structure SymptomAnswers where
  pain_level : Option Nat := none
  duration : Option String := none
  pain_pattern : Option (List String) := none
  pain_type : Option (List String) := none
deriving DecidableEq

/-- `answers.functional_assessment` object. -/
structure FunctionalAnswers where
  work_impact : Option String := none
  sleep_impact : Option String := none
  movement_patterns : Option (List String) := none
  activities_avoided : Option (List String) := none
  assistance_needed : Option String := none
deriving DecidableEq

/-- `answers.medical_history` object. -/
structure MedicalAnswers where
  previous_injuries : Option String := none
  surgery_history : Option (List String) := none
  chronic_conditions : Option (List String) := none
  medications : Option String := none
deriving DecidableEq

/-- `answers.demographics` object. -/
structure DemographicsAnswers where
  age : Option String := none
  activity_level : Option String := none
deriving DecidableEq

/-- The `answers` record of an assessment; each group key may be absent. -/
structure Answers where
  screening_questions : Option ScreeningAnswers := none
  symptom_onset : Option SymptomAnswers := none
  functional_assessment : Option FunctionalAnswers := none
  medical_history : Option MedicalAnswers := none
  demographics : Option DemographicsAnswers := none
deriving DecidableEq

/-- `AssessmentData`: input of the scoring functions. -/
structure AssessmentData where
  selectedBodyParts : List String
  answers : Answers
deriving DecidableEq

/-- Dynamic lookup `screeningAnswers[question]` restricted to the keys the
code ever queries. -/
def ScreeningAnswers.get (s : ScreeningAnswers) : String → Option String
  | "weight_loss" => s.weight_loss
  | "corticosteroids" => s.corticosteroids
  | "constant_pain" => s.constant_pain
  | "cancer_history" => s.cancer_history
  | "general_symptoms" => s.general_symptoms
  | "night_pain" => s.night_pain
  | "weight_bearing" => s.weight_bearing
  | "neurological_symptoms" => s.neurological_symptoms
  | "bowel_bladder" => s.bowel_bladder
  | "fever" => s.fever
  | "accident_cause" => s.accident_cause
  | _ => none

/-- The ten red-flag question keys, in the order the source lists them. -/
def redFlagQuestions : List String :=
  ["weight_loss", "corticosteroids", "constant_pain", "cancer_history",
   "general_symptoms", "night_pain", "weight_bearing", "neurological_symptoms",
   "bowel_bladder", "fever"]

/-- JS `String.prototype.replace('_', ' ')`: replaces only the first
underscore. -/
def replaceFirstUnderscore : List Char → List Char
  | [] => []
  | c :: cs => if c = '_' then ' ' :: cs else c :: replaceFirstUnderscore cs

/-- `question.replace('_', ' ')` on a string. -/
def replaceUnderscore (s : String) : String :=
  ⟨replaceFirstUnderscore s.data⟩

/-- `checkRedFlags(data)`: the red-flag keys answered exactly `"yes"`, with
the first underscore replaced by a space, in the fixed question order. -/
def checkRedFlags (data : AssessmentData) : List String :=
  let screeningAnswers := data.answers.screening_questions.getD {}
  (redFlagQuestions.filter
    (fun question => screeningAnswers.get question == some "yes")).map
    replaceUnderscore

/-- Result record of `assessRiskLevel`. -/
structure RiskResult where
  level : String
  riskScore : Nat
  riskFactors : List String
deriving DecidableEq

/-- One `if (cond) { riskScore += w; riskFactors.push(f) }` block. -/
def rule (cond : Bool) (w : Nat) (f : String) : Nat × List String :=
  if cond then (w, [f]) else (0, [])

def highRiskAreas : List String := ["lower_back", "upper_back", "neck", "head"]

def moderateRiskAreas : List String :=
  ["shoulder_left", "shoulder_right", "knee_left", "knee_right",
   "hip_left", "hip_right", "chest"]

def spineAreas : List String := ["lower_back", "upper_back", "neck"]

def jointAreas : List String :=
  ["shoulder_left", "shoulder_right", "knee_left", "knee_right",
   "hip_left", "hip_right", "elbow_left", "elbow_right",
   "ankle_left", "ankle_right"]

/-- The weighted-rule blocks of `assessRiskLevel`, in source order.  Each
entry is the (weight, pushed factors) contribution of one block; an if/else
chain is a single entry. -/
def ruleList (data : AssessmentData) : List (Nat × List String) :=
  let redFlags := checkRedFlags data
  let symptomAnswers := data.answers.symptom_onset.getD {}
  let functionalAnswers := data.answers.functional_assessment.getD {}
  let medicalAnswers := data.answers.medical_history.getD {}
  let screeningAnswers := data.answers.screening_questions.getD {}
  let painLevel := symptomAnswers.pain_level.getD 0
  let painPattern := symptomAnswers.pain_pattern.getD []
  let painType := symptomAnswers.pain_type.getD []
  let surgeryHistory := medicalAnswers.surgery_history.getD []
  let chronicConditions := medicalAnswers.chronic_conditions.getD []
  let selectedAreas := data.selectedBodyParts
  let hasHighRiskArea := selectedAreas.any (fun area => highRiskAreas.contains area)
  let hasModerateRiskArea := selectedAreas.any (fun area => moderateRiskAreas.contains area)
  let hasSpineArea := selectedAreas.any (fun area => spineAreas.contains area)
  let hasJointArea := selectedAreas.any (fun area => jointAreas.contains area)
  let demographicsAnswers := data.answers.demographics.getD {}
  let movementPatterns := functionalAnswers.movement_patterns.getD []
  let activitiesAvoided := functionalAnswers.activities_avoided.getD []
  [ (if redFlags.length > 0 then
      (redFlags.length * 15, ["Red flags: " ++ String.intercalate ", " redFlags])
     else (0, [])),
    (if painLevel ≥ 9 then (12, [s!"Very severe pain (level {painLevel}/10)"])
     else if painLevel ≥ 7 then (8, [s!"Severe pain (level {painLevel}/10)"])
     else if painLevel ≥ 5 then (5, [s!"Moderate pain (level {painLevel}/10)"])
     else if painLevel ≥ 3 then (2, [s!"Mild pain (level {painLevel}/10)"])
     else (0, [])),
    (if symptomAnswers.duration = some "More than 6 months" then
      (5, ["Chronic symptoms (>6 months)"])
     else if symptomAnswers.duration = some "3-6 months" then
      (3, ["Prolonged symptoms (3-6 months)"])
     else if symptomAnswers.duration = some "1-3 months" then
      (2, ["Persistent symptoms (1-3 months)"])
     else if symptomAnswers.duration = some "1-4 weeks" then
      (1, ["Recent symptoms (1-4 weeks)"])
     else (0, [])),
    (if functionalAnswers.work_impact = some "Unable to work/perform activities" then
      (8, ["Severe functional limitation"])
     else if functionalAnswers.work_impact = some "Severely" then
      (6, ["Significant functional impact"])
     else if functionalAnswers.work_impact = some "Moderately" then
      (4, ["Moderate functional impact"])
     else if functionalAnswers.work_impact = some "Slightly" then
      (2, ["Mild functional impact"])
     else (0, [])),
    (if functionalAnswers.sleep_impact = some "Unable to sleep due to symptoms" then
      (7, ["Severe sleep disturbance"])
     else if functionalAnswers.sleep_impact = some "Frequent sleep disturbance" then
      (5, ["Frequent sleep problems"])
     else if functionalAnswers.sleep_impact = some "Occasional sleep disturbance" then
      (3, ["Occasional sleep problems"])
     else (0, [])),
    rule (painPattern.contains "Constant") 6 "Constant pain pattern",
    rule (painPattern.contains "At night") 5 "Night pain",
    rule (painPattern.contains "When moving") 3 "Movement-related pain",
    rule (painPattern.contains "In the morning") 2 "Morning stiffness/pain",
    rule (painPattern.contains "After activity") 2 "Post-activity pain",
    rule (painType.contains "Sharp") 4 "Sharp pain",
    rule (painType.contains "Burning") 3 "Burning pain",
    rule (painType.contains "Tingling") 3 "Tingling sensation",
    rule (painType.contains "Numbness") 4 "Numbness",
    rule (painType.contains "Weakness") 5 "Muscle weakness",
    rule (medicalAnswers.previous_injuries == some "yes") 3
      "Previous injuries to affected area",
    rule (surgeryHistory.length > 0 && !surgeryHistory.contains "None") 4
      "Previous surgeries",
    rule (chronicConditions.length > 0 && !chronicConditions.contains "None") 3
      "Chronic medical conditions",
    rule (medicalAnswers.medications == some "yes") 2
      "Currently taking medications",
    rule (screeningAnswers.accident_cause == some "yes") 4
      "Symptoms caused by accident/fall",
    rule hasHighRiskArea 2 "High-risk body area affected",
    rule hasModerateRiskArea 1 "Moderate-risk body area affected",
    rule (hasSpineArea && (painType.contains "Tingling" || painType.contains "Numbness")) 3
      "Spine-related neurological symptoms",
    rule (hasSpineArea && painPattern.contains "Constant") 2 "Constant spine pain",
    rule (hasSpineArea && movementPatterns.contains "Walking") 2
      "Spine pain affecting walking",
    rule (hasJointArea && painType.contains "Weakness") 3
      "Joint-related muscle weakness",
    rule (hasJointArea && functionalAnswers.assistance_needed == some "yes") 2
      "Joint requiring assistance",
    (if demographicsAnswers.age = some "70+ years" then (3, ["Advanced age (70+)"])
     else if demographicsAnswers.age = some "60 - 69 years" then
      (2, ["Older age (60-69)"])
     else (0, [])),
    rule (demographicsAnswers.activity_level ==
      some "Extremely active (very hard exercise, physical job)") 2
      "Extremely active lifestyle",
    rule (movementPatterns.contains "Lifting objects") 2 "Pain with lifting",
    rule (movementPatterns.contains "Reaching overhead") 2
      "Pain with overhead activities",
    rule (movementPatterns.contains "Bending forward") 3
      "Pain with forward bending",
    rule (movementPatterns.contains "Bending backward") 3
      "Pain with backward bending",
    rule (movementPatterns.contains "Twisting/rotating") 3
      "Pain with twisting/rotation",
    rule (movementPatterns.contains "Walking") 4 "Pain with walking",
    rule (movementPatterns.contains "Climbing stairs") 3
      "Pain with stair climbing",
    rule (activitiesAvoided.contains "Exercise/sports") 2
      "Avoiding exercise due to pain",
    rule (activitiesAvoided.contains "Work activities") 3
      "Work activities affected",
    rule (functionalAnswers.assistance_needed == some "yes") 4
      "Requires assistance with daily activities" ]

/-- `assessRiskLevel(data)`: accumulate the weighted rules, then threshold. -/
def assessRiskLevel (data : AssessmentData) : RiskResult :=
  let redFlags := checkRedFlags data
  let rs := ruleList data
  let riskScore := (rs.map Prod.fst).sum
  let riskFactors := (rs.map Prod.snd).flatten
  let level : String :=
    if riskScore ≥ 12 ∨ redFlags.length > 0 then "HIGH"
    else if riskScore ≥ 6 then "MEDIUM"
    else "LOW"
  ⟨level, riskScore, riskFactors⟩

/-- The static body-part display-name table of `getBodyPartName`. -/
def bodyPartNames : String → Option String
  | "head" => some "Head"
  | "neck" => some "Neck"
  | "shoulder_left" => some "Left Shoulder"
  | "shoulder_right" => some "Right Shoulder"
  | "chest" => some "Chest"
  | "upper_back" => some "Upper Back"
  | "lower_back" => some "Lower Back"
  | "arm_left" => some "Left Arm"
  | "arm_right" => some "Right Arm"
  | "elbow_left" => some "Left Elbow"
  | "elbow_right" => some "Right Elbow"
  | "wrist_left" => some "Left Wrist"
  | "wrist_right" => some "Right Wrist"
  | "hand_left" => some "Left Hand"
  | "hand_right" => some "Right Hand"
  | "hip_left" => some "Left Hip"
  | "hip_right" => some "Right Hip"
  | "thigh_left" => some "Left Thigh"
  | "thigh_right" => some "Right Thigh"
  | "knee_left" => some "Left Knee"
  | "knee_right" => some "Right Knee"
  | "calf_left" => some "Left Calf"
  | "calf_right" => some "Right Calf"
  | "ankle_left" => some "Left Ankle"
  | "ankle_right" => some "Right Ankle"
  | "foot_left" => some "Left Foot"
  | "foot_right" => some "Right Foot"
  | _ => none

/-- `getBodyPartName(partId)`: lookup with fallback to the raw id. -/
def getBodyPartName (partId : String) : String :=
  (bodyPartNames partId).getD partId

/-- Does `p` occur at the head of the second list? -/
def charsStartWith : List Char → List Char → Bool
  | [], _ => true
  | _ :: _, [] => false
  | p :: ps, c :: cs => p = c && charsStartWith ps cs

/-- Does `pat` occur as a contiguous run of the second list? -/
def charsContain (pat : List Char) : List Char → Bool
  | [] => charsStartWith pat []
  | c :: cs => charsStartWith pat (c :: cs) || charsContain pat cs

/-- JS `String.prototype.includes(pat)`: substring containment. -/
def strIncludes (s pat : String) : Bool :=
  charsContain pat.data s.data

/-- `generateSummary(data)`. -/
def generateSummary (data : AssessmentData) : String :=
  let areas := String.intercalate ", "
    (data.selectedBodyParts.map (fun partId => getBodyPartName partId))
  "Primary areas of concern: " ++ areas

/-- `generateRecommendations(data, riskLevel)`. -/
def generateRecommendations (data : AssessmentData) (riskLevel : String) :
    List String :=
  let selectedAreas := data.selectedBodyParts
  (if riskLevel = "HIGH" then
    ["Immediate medical evaluation is strongly recommended."]
   else if riskLevel = "MEDIUM" then
    ["Schedule a medical evaluation within the next few days."]
   else []) ++
  ["Schedule an appointment with a qualified physiotherapist for a comprehensive evaluation."] ++
  (if selectedAreas.any (fun area => strIncludes area "back") then
    ["Consider core strengthening exercises to support your spine."] else []) ++
  (if selectedAreas.any (fun area => strIncludes area "knee") then
    ["Avoid high-impact activities until evaluated by a healthcare professional."] else []) ++
  (if selectedAreas.any (fun area => strIncludes area "shoulder") then
    ["Avoid overhead activities that may aggravate your shoulder symptoms."] else []) ++
  (if selectedAreas.any (fun area => strIncludes area "neck") then
    ["Pay attention to posture and ergonomics in daily activities."] else [])

/-- `generateSelfCareTips(data)`. -/
def generateSelfCareTips (data : AssessmentData) : List String :=
  let selectedAreas := data.selectedBodyParts
  ["Apply ice for acute pain (first 48-72 hours)",
   "Apply heat for chronic pain or stiffness",
   "Maintain gentle movement within pain-free range",
   "Practice good posture throughout the day"] ++
  (if selectedAreas.any (fun area => strIncludes area "back") then
    ["Use proper lifting techniques (bend at knees, not waist)",
     "Consider using a lumbar support pillow when sitting"] else []) ++
  (if selectedAreas.any (fun area => strIncludes area "knee") then
    ["Elevate your leg when resting",
     "Avoid prolonged sitting or standing in one position"] else []) ++
  (if selectedAreas.any (fun area => strIncludes area "shoulder") then
    ["Sleep with a pillow supporting your arm",
     "Avoid sleeping on the affected shoulder"] else [])

/-- `generateMedicalAttention(riskLevel, redFlags)`. -/
def generateMedicalAttention (riskLevel : String) (_redFlags : List String) :
    List String :=
  (if riskLevel = "HIGH" then
    ["Seek immediate medical attention due to the presence of red flags or concerning symptoms."]
   else if riskLevel = "MEDIUM" then
    ["Monitor symptoms closely and seek medical attention if they worsen."]
   else []) ++
  ["Severe or worsening pain",
   "Numbness, tingling, or weakness in limbs",
   "Loss of bowel or bladder control",
   "Fever with back pain",
   "Pain that wakes you at night",
   "Inability to bear weight on affected area"]

/-- Output record of `processAssessmentData`. -/
structure ProcessedAssessmentData where
  riskLevel : String
  riskScore : Nat
  riskFactors : List String
  summary : String
  recommendations : List String
  selfCareTips : List String
  medicalAttention : List String
deriving DecidableEq

/-- `processAssessmentData(data)`. -/
def processAssessmentData (data : AssessmentData) : ProcessedAssessmentData :=
  let redFlags := checkRedFlags data
  let riskAssessment := assessRiskLevel data
  let summary := generateSummary data
  let recommendations := generateRecommendations data riskAssessment.level
  let selfCareTips := generateSelfCareTips data
  let medicalAttention := generateMedicalAttention riskAssessment.level redFlags
  ⟨riskAssessment.level, riskAssessment.riskScore, riskAssessment.riskFactors,
   summary, recommendations, selfCareTips, medicalAttention⟩

/-- Claim-side predicate: at least one of the ten red-flag screening answers
is exactly `"yes"`. -/
def redFlagYes (d : AssessmentData) : Prop :=
  let s := d.answers.screening_questions.getD {}
  s.weight_loss = some "yes" ∨ s.corticosteroids = some "yes" ∨
  s.constant_pain = some "yes" ∨ s.cancer_history = some "yes" ∨
  s.general_symptoms = some "yes" ∨ s.night_pain = some "yes" ∨
  s.weight_bearing = some "yes" ∨ s.neurological_symptoms = some "yes" ∨
  s.bowel_bladder = some "yes" ∨ s.fever = some "yes"

instance (d : AssessmentData) : Decidable (redFlagYes d) := by
  unfold redFlagYes; infer_instance

/-- The rule blocks after the red-flag block, in source order. -/
def restRules (d : AssessmentData) : List (Nat × List String) :=
  (ruleList d).tail

/-- Total weight of every rule block after the red-flag block. -/
def restScore (d : AssessmentData) : Nat :=
  ((restRules d).map Prod.fst).sum

/-- Factors pushed by every rule block after the red-flag block. -/
def restFactors (d : AssessmentData) : List String :=
  ((restRules d).map Prod.snd).flatten

/-- The empty `AssessmentData`: no body areas, no answer groups. -/
def emptyData : AssessmentData := ⟨[], {}⟩

/-- Answer set whose only non-default field is `screeningAnswers.fever = "yes"`. -/
def feverOnly : AssessmentData :=
  ⟨[], { screening_questions := some { fever := some "yes" } }⟩

/-- The C6 scenario input: `lower_back`, pain 8, duration more than 6 months. -/
def lowerBackChronic : AssessmentData :=
  ⟨["lower_back"],
   { symptom_onset := some { pain_level := some 8,
                             duration := some "More than 6 months" } }⟩

theorem checkRedFlags_ne_nil_iff (d : AssessmentData) :
    checkRedFlags d ≠ [] ↔ redFlagYes d := by
  simp only [checkRedFlags, redFlagYes, ne_eq, List.map_eq_nil_iff,
    List.filter_eq_nil_iff, not_forall, not_not, redFlagQuestions]
  constructor
  · rintro ⟨q, hq, hyes⟩
    fin_cases hq <;> simp_all [ScreeningAnswers.get]
  · rintro (h | h | h | h | h | h | h | h | h | h)
    · exact ⟨"weight_loss", by simp, by simp [ScreeningAnswers.get, h]⟩
    · exact ⟨"corticosteroids", by simp, by simp [ScreeningAnswers.get, h]⟩
    · exact ⟨"constant_pain", by simp, by simp [ScreeningAnswers.get, h]⟩
    · exact ⟨"cancer_history", by simp, by simp [ScreeningAnswers.get, h]⟩
    · exact ⟨"general_symptoms", by simp, by simp [ScreeningAnswers.get, h]⟩
    · exact ⟨"night_pain", by simp, by simp [ScreeningAnswers.get, h]⟩
    · exact ⟨"weight_bearing", by simp, by simp [ScreeningAnswers.get, h]⟩
    · exact ⟨"neurological_symptoms", by simp, by simp [ScreeningAnswers.get, h]⟩
    · exact ⟨"bowel_bladder", by simp, by simp [ScreeningAnswers.get, h]⟩
    · exact ⟨"fever", by simp, by simp [ScreeningAnswers.get, h]⟩

theorem checkRedFlags_length_pos_iff (d : AssessmentData) :
    (checkRedFlags d).length > 0 ↔ redFlagYes d := by
  rw [← checkRedFlags_ne_nil_iff d]
  exact List.length_pos

/-- The scoring result, with the three projections exposed. -/
theorem assessRiskLevel_eq (d : AssessmentData) :
    assessRiskLevel d =
      ⟨if ((ruleList d).map Prod.fst).sum ≥ 12 ∨ (checkRedFlags d).length > 0
         then "HIGH"
       else if ((ruleList d).map Prod.fst).sum ≥ 6 then "MEDIUM" else "LOW",
       ((ruleList d).map Prod.fst).sum,
       ((ruleList d).map Prod.snd).flatten⟩ := rfl


/-- C1: the risk level is `HIGH` iff the score is at least 12 or some of the
ten red-flag screening answers is exactly `"yes"`; otherwise it is `MEDIUM`
iff the score is at least 6; otherwise `LOW`.  In particular a `"yes"`
red-flag answer forces `HIGH`. -/
theorem c1_level_thresholds (d : AssessmentData) :
    ((assessRiskLevel d).level = "HIGH" ↔
      ((assessRiskLevel d).riskScore ≥ 12 ∨ redFlagYes d)) ∧
    ((assessRiskLevel d).level = "MEDIUM" ↔
      (¬((assessRiskLevel d).riskScore ≥ 12 ∨ redFlagYes d) ∧
        (assessRiskLevel d).riskScore ≥ 6)) ∧
    ((assessRiskLevel d).level = "LOW" ↔
      (¬((assessRiskLevel d).riskScore ≥ 12 ∨ redFlagYes d) ∧
        ¬(assessRiskLevel d).riskScore ≥ 6)) := by
  rw [assessRiskLevel_eq d]
  simp only [checkRedFlags_length_pos_iff d]
  split_ifs with h1 h2 <;> simp_all

/-- C9: the empty answer set scores 0, level `LOW`, no factors. -/
theorem c9_empty_answer_set :
    assessRiskLevel emptyData = ⟨"LOW", 0, []⟩ := by decide

/-- C6: pain 8 (+8), chronic duration (+5) and a high-risk body area (+2)
give score 15, level `HIGH`, and exactly those three factors. -/
theorem c6_lower_back_scenario :
    assessRiskLevel lowerBackChronic =
      ⟨"HIGH", 15,
       ["Severe pain (level 8/10)", "Chronic symptoms (>6 months)",
        "High-risk body area affected"]⟩ := by decide

/-- The rule list is the red-flag block followed by the remaining blocks. -/
theorem ruleList_head (d : AssessmentData) :
    ruleList d =
      (if (checkRedFlags d).length > 0 then
        ((checkRedFlags d).length * 15,
         ["Red flags: " ++ String.intercalate ", " (checkRedFlags d)])
       else (0, [])) :: restRules d := rfl

/-- C2: the score splits as 15 per red flag plus the other rules' weights;
when red flags exist, exactly one aggregate factor (the red-flag names
joined by `", "`) heads the factor list; and the fever-only answer set
scores 15 with level `HIGH`. -/
theorem c2_red_flag_weight (d : AssessmentData) :
    ((assessRiskLevel d).riskScore = 15 * (checkRedFlags d).length + restScore d) ∧
    (checkRedFlags d ≠ [] →
      (assessRiskLevel d).riskFactors =
        ("Red flags: " ++ String.intercalate ", " (checkRedFlags d)) :: restFactors d) ∧
    ((assessRiskLevel feverOnly).riskScore = 15 ∧
      (assessRiskLevel feverOnly).level = "HIGH") := by
  refine ⟨?_, ?_, by decide, by decide⟩
  · rw [assessRiskLevel_eq d]
    show ((ruleList d).map Prod.fst).sum = _
    rw [ruleList_head d, List.map_cons, List.sum_cons, apply_ite Prod.fst]
    show (if (checkRedFlags d).length > 0 then (checkRedFlags d).length * 15
          else 0) + restScore d = _
    split_ifs with h <;> omega
  · intro h
    rw [assessRiskLevel_eq d]
    show ((ruleList d).map Prod.snd).flatten = _
    rw [ruleList_head d, List.map_cons, List.flatten_cons, apply_ite Prod.snd]
    rw [if_pos (List.length_pos.mpr h)]
    rfl

theorem contains_of_subset {l l' : List String} (h : l ⊆ l') {a : String}
    (hc : l.contains a = true) : l'.contains a = true :=
  List.elem_iff.mpr (h (List.elem_iff.mp hc))

theorem any_of_subset {l l' : List String} (h : l ⊆ l') {p : String → Bool}
    (ha : l.any p = true) : l'.any p = true := by
  rw [List.any_eq_true] at ha ⊢
  obtain ⟨a, hal, hp⟩ := ha
  exact ⟨a, h hal, hp⟩

theorem ite_weight_mono {c c' : Bool} (w : Nat) (h : c = true → c' = true) :
    (if c then w else 0) ≤ (if c' then w else 0) := by
  split_ifs with h1 h2 <;> simp_all

theorem filter_length_mono {α : Type} (l : List α) {p q : α → Bool}
    (h : ∀ a ∈ l, p a = true → q a = true) :
    (l.filter p).length ≤ (l.filter q).length := by
  induction l with
  | nil => simp
  | cons x xs ih =>
    have hx := h x (by simp)
    have ihh := ih (fun a ha hpa => h a (by simp [ha]) hpa)
    simp only [List.filter_cons]
    by_cases hp : p x = true
    · rw [if_pos hp, if_pos (hx hp)]
      simpa using ihh
    · rw [if_neg hp]
      by_cases hq : q x = true
      · rw [if_pos hq]
        simp only [List.length_cons]
        omega
      · rw [if_neg hq]
        exact ihh

theorem checkRedFlags_length_le (d d' : AssessmentData)
    (h : ∀ q ∈ redFlagQuestions,
      (d.answers.screening_questions.getD {}).get q = some "yes" →
      (d'.answers.screening_questions.getD {}).get q = some "yes") :
    (checkRedFlags d).length ≤ (checkRedFlags d').length := by
  simp only [checkRedFlags, List.length_map]
  refine filter_length_mono _ (fun q hq hy => ?_)
  have := h q hq (by simpa using hy)
  simpa using this

theorem score_mono_painLevel (areas : List String) (ans : Answers)
    (sym : SymptomAnswers) (p q : Nat) (hpq : p ≤ q) :
    (assessRiskLevel ⟨areas,
      { ans with symptom_onset := some { sym with pain_level := some p } }⟩).riskScore ≤
    (assessRiskLevel ⟨areas,
      { ans with symptom_onset := some { sym with pain_level := some q } }⟩).riskScore := by
  rw [assessRiskLevel_eq, assessRiskLevel_eq]
  simp only [ruleList, rule, checkRedFlags, List.map_cons, List.map_nil,
    List.sum_cons, List.sum_nil, apply_ite Prod.fst, Option.getD_some,
    Option.getD_none]
  have hp : (if p ≥ 9 then 12 else if p ≥ 7 then 8 else if p ≥ 5 then 5
        else if p ≥ 3 then 2 else 0)
      ≤ (if q ≥ 9 then 12 else if q ≥ 7 then 8 else if q ≥ 5 then 5
        else if q ≥ 3 then 2 else (0 : Nat)) := by
    split_ifs <;> omega
  omega

theorem score_mono_painPattern (areas : List String) (ans : Answers)
    (sym : SymptomAnswers) (l l' : List String) (hl : l ⊆ l') :
    (assessRiskLevel ⟨areas,
      { ans with symptom_onset := some { sym with pain_pattern := some l } }⟩).riskScore ≤
    (assessRiskLevel ⟨areas,
      { ans with symptom_onset := some { sym with pain_pattern := some l' } }⟩).riskScore := by
  rw [assessRiskLevel_eq, assessRiskLevel_eq]
  simp only [ruleList, rule, checkRedFlags, List.map_cons, List.map_nil,
    List.sum_cons, List.sum_nil, apply_ite Prod.fst, Option.getD_some,
    Option.getD_none]
  gcongr <;>
  · apply ite_weight_mono
    intro hcc
    simp only [Bool.and_eq_true] at hcc ⊢
    first
      | exact contains_of_subset hl hcc
      | exact ⟨hcc.1, contains_of_subset hl hcc.2⟩

theorem score_mono_painType (areas : List String) (ans : Answers)
    (sym : SymptomAnswers) (l l' : List String) (hl : l ⊆ l') :
    (assessRiskLevel ⟨areas,
      { ans with symptom_onset := some { sym with pain_type := some l } }⟩).riskScore ≤
    (assessRiskLevel ⟨areas,
      { ans with symptom_onset := some { sym with pain_type := some l' } }⟩).riskScore := by
  rw [assessRiskLevel_eq, assessRiskLevel_eq]
  simp only [ruleList, rule, checkRedFlags, List.map_cons, List.map_nil,
    List.sum_cons, List.sum_nil, apply_ite Prod.fst, Option.getD_some,
    Option.getD_none]
  gcongr <;>
  · apply ite_weight_mono
    intro hcc
    simp only [Bool.and_eq_true, Bool.or_eq_true] at hcc ⊢
    first
      | exact contains_of_subset hl hcc
      | exact ⟨hcc.1, contains_of_subset hl hcc.2⟩
      | exact ⟨hcc.1, hcc.2.imp (contains_of_subset hl) (contains_of_subset hl)⟩

theorem sum_fst_le_of_forall2 {rs rs' : List (Nat × List String)}
    (h : List.Forall₂ (fun r r' => r.1 ≤ r'.1) rs rs') :
    (rs.map Prod.fst).sum ≤ (rs'.map Prod.fst).sum := by
  induction h with
  | nil => simp
  | cons hh _ ih =>
    simp only [List.map_cons, List.sum_cons]
    omega

theorem score_le_of_rules (d d' : AssessmentData)
    (h : List.Forall₂ (fun r r' => r.1 ≤ r'.1) (ruleList d) (ruleList d')) :
    (assessRiskLevel d).riskScore ≤ (assessRiskLevel d').riskScore := by
  rw [assessRiskLevel_eq, assessRiskLevel_eq]
  exact sum_fst_le_of_forall2 h

theorem score_mono_movementPatterns (areas : List String) (ans : Answers)
    (fn : FunctionalAnswers) (l l' : List String) (hl : l ⊆ l') :
    (assessRiskLevel ⟨areas,
      { ans with functional_assessment := some { fn with movement_patterns := some l } }⟩).riskScore ≤
    (assessRiskLevel ⟨areas,
      { ans with functional_assessment := some { fn with movement_patterns := some l' } }⟩).riskScore := by
  apply score_le_of_rules
  simp only [ruleList, checkRedFlags, Option.getD_some, Option.getD_none]
  refine .cons ?_ (.cons ?_ (.cons ?_ (.cons ?_ (.cons ?_ (.cons ?_ (.cons ?_ (.cons ?_ (.cons ?_ (.cons ?_ (.cons ?_ (.cons ?_ (.cons ?_ (.cons ?_ (.cons ?_ (.cons ?_ (.cons ?_ (.cons ?_ (.cons ?_ (.cons ?_ (.cons ?_ (.cons ?_ (.cons ?_ (.cons ?_ (.cons ?_ (.cons ?_ (.cons ?_ (.cons ?_ (.cons ?_ (.cons ?_ (.cons ?_ (.cons ?_ (.cons ?_ (.cons ?_ (.cons ?_ (.cons ?_ (.cons ?_ (.cons ?_ (.cons ?_ .nil))))))))))))))))))))))))))))))))))))))
  all_goals
    simp only [rule, apply_ite Prod.fst]
  all_goals first
    | exact Nat.le_refl _
    | (apply ite_weight_mono
       intro hcc
       simp only [Bool.and_eq_true] at hcc ⊢
       first
         | exact contains_of_subset hl hcc
         | exact ⟨hcc.1, contains_of_subset hl hcc.2⟩)

theorem score_mono_activitiesAvoided (areas : List String) (ans : Answers)
    (fn : FunctionalAnswers) (l l' : List String) (hl : l ⊆ l') :
    (assessRiskLevel ⟨areas,
      { ans with functional_assessment := some { fn with activities_avoided := some l } }⟩).riskScore ≤
    (assessRiskLevel ⟨areas,
      { ans with functional_assessment := some { fn with activities_avoided := some l' } }⟩).riskScore := by
  apply score_le_of_rules
  simp only [ruleList, checkRedFlags, Option.getD_some, Option.getD_none]
  refine .cons ?_ (.cons ?_ (.cons ?_ (.cons ?_ (.cons ?_ (.cons ?_ (.cons ?_ (.cons ?_ (.cons ?_ (.cons ?_ (.cons ?_ (.cons ?_ (.cons ?_ (.cons ?_ (.cons ?_ (.cons ?_ (.cons ?_ (.cons ?_ (.cons ?_ (.cons ?_ (.cons ?_ (.cons ?_ (.cons ?_ (.cons ?_ (.cons ?_ (.cons ?_ (.cons ?_ (.cons ?_ (.cons ?_ (.cons ?_ (.cons ?_ (.cons ?_ (.cons ?_ (.cons ?_ (.cons ?_ (.cons ?_ (.cons ?_ (.cons ?_ (.cons ?_ .nil))))))))))))))))))))))))))))))))))))))
  all_goals
    simp only [rule, apply_ite Prod.fst]
  all_goals first
    | exact Nat.le_refl _
    | (apply ite_weight_mono
       intro hcc
       exact contains_of_subset hl hcc)

theorem score_mono_bodyAreas (areas areas' : List String) (ans : Answers)
    (ha : areas ⊆ areas') :
    (assessRiskLevel ⟨areas, ans⟩).riskScore ≤
    (assessRiskLevel ⟨areas', ans⟩).riskScore := by
  apply score_le_of_rules
  simp only [ruleList, checkRedFlags, Option.getD_some, Option.getD_none]
  refine .cons ?_ (.cons ?_ (.cons ?_ (.cons ?_ (.cons ?_ (.cons ?_ (.cons ?_ (.cons ?_ (.cons ?_ (.cons ?_ (.cons ?_ (.cons ?_ (.cons ?_ (.cons ?_ (.cons ?_ (.cons ?_ (.cons ?_ (.cons ?_ (.cons ?_ (.cons ?_ (.cons ?_ (.cons ?_ (.cons ?_ (.cons ?_ (.cons ?_ (.cons ?_ (.cons ?_ (.cons ?_ (.cons ?_ (.cons ?_ (.cons ?_ (.cons ?_ (.cons ?_ (.cons ?_ (.cons ?_ (.cons ?_ (.cons ?_ (.cons ?_ (.cons ?_ .nil))))))))))))))))))))))))))))))))))))))
  all_goals
    simp only [rule, apply_ite Prod.fst]
  all_goals first
    | exact Nat.le_refl _
    | (apply ite_weight_mono
       intro hcc
       simp only [Bool.and_eq_true] at hcc ⊢
       first
         | exact any_of_subset ha hcc
         | exact ⟨any_of_subset ha hcc.1, hcc.2⟩)

theorem score_mono_flag_weight_loss (areas : List String) (ans : Answers)
    (scr : ScreeningAnswers) :
    (assessRiskLevel ⟨areas, { ans with screening_questions := some scr }⟩).riskScore ≤
    (assessRiskLevel ⟨areas, { ans with screening_questions := some { scr with weight_loss := some "yes" } }⟩).riskScore := by
  have hlen : (checkRedFlags ⟨areas, { ans with screening_questions := some scr }⟩).length ≤
      (checkRedFlags ⟨areas, { ans with screening_questions := some { scr with weight_loss := some "yes" } }⟩).length := by
    apply checkRedFlags_length_le
    intro q hq
    fin_cases hq <;> simp [ScreeningAnswers.get]
  apply score_le_of_rules
  simp only [ruleList, Option.getD_some, Option.getD_none]
  refine .cons ?_ (.cons ?_ (.cons ?_ (.cons ?_ (.cons ?_ (.cons ?_ (.cons ?_ (.cons ?_ (.cons ?_ (.cons ?_ (.cons ?_ (.cons ?_ (.cons ?_ (.cons ?_ (.cons ?_ (.cons ?_ (.cons ?_ (.cons ?_ (.cons ?_ (.cons ?_ (.cons ?_ (.cons ?_ (.cons ?_ (.cons ?_ (.cons ?_ (.cons ?_ (.cons ?_ (.cons ?_ (.cons ?_ (.cons ?_ (.cons ?_ (.cons ?_ (.cons ?_ (.cons ?_ (.cons ?_ (.cons ?_ (.cons ?_ (.cons ?_ (.cons ?_ .nil))))))))))))))))))))))))))))))))))))))
  all_goals simp only [rule, apply_ite Prod.fst]
  all_goals split_ifs <;> first | omega | simp_all

theorem score_mono_flag_corticosteroids (areas : List String) (ans : Answers)
    (scr : ScreeningAnswers) :
    (assessRiskLevel ⟨areas, { ans with screening_questions := some scr }⟩).riskScore ≤
    (assessRiskLevel ⟨areas, { ans with screening_questions := some { scr with corticosteroids := some "yes" } }⟩).riskScore := by
  have hlen : (checkRedFlags ⟨areas, { ans with screening_questions := some scr }⟩).length ≤
      (checkRedFlags ⟨areas, { ans with screening_questions := some { scr with corticosteroids := some "yes" } }⟩).length := by
    apply checkRedFlags_length_le
    intro q hq
    fin_cases hq <;> simp [ScreeningAnswers.get]
  apply score_le_of_rules
  simp only [ruleList, Option.getD_some, Option.getD_none]
  refine .cons ?_ (.cons ?_ (.cons ?_ (.cons ?_ (.cons ?_ (.cons ?_ (.cons ?_ (.cons ?_ (.cons ?_ (.cons ?_ (.cons ?_ (.cons ?_ (.cons ?_ (.cons ?_ (.cons ?_ (.cons ?_ (.cons ?_ (.cons ?_ (.cons ?_ (.cons ?_ (.cons ?_ (.cons ?_ (.cons ?_ (.cons ?_ (.cons ?_ (.cons ?_ (.cons ?_ (.cons ?_ (.cons ?_ (.cons ?_ (.cons ?_ (.cons ?_ (.cons ?_ (.cons ?_ (.cons ?_ (.cons ?_ (.cons ?_ (.cons ?_ (.cons ?_ .nil))))))))))))))))))))))))))))))))))))))
  all_goals simp only [rule, apply_ite Prod.fst]
  all_goals split_ifs <;> first | omega | simp_all

theorem score_mono_flag_constant_pain (areas : List String) (ans : Answers)
    (scr : ScreeningAnswers) :
    (assessRiskLevel ⟨areas, { ans with screening_questions := some scr }⟩).riskScore ≤
    (assessRiskLevel ⟨areas, { ans with screening_questions := some { scr with constant_pain := some "yes" } }⟩).riskScore := by
  have hlen : (checkRedFlags ⟨areas, { ans with screening_questions := some scr }⟩).length ≤
      (checkRedFlags ⟨areas, { ans with screening_questions := some { scr with constant_pain := some "yes" } }⟩).length := by
    apply checkRedFlags_length_le
    intro q hq
    fin_cases hq <;> simp [ScreeningAnswers.get]
  apply score_le_of_rules
  simp only [ruleList, Option.getD_some, Option.getD_none]
  refine .cons ?_ (.cons ?_ (.cons ?_ (.cons ?_ (.cons ?_ (.cons ?_ (.cons ?_ (.cons ?_ (.cons ?_ (.cons ?_ (.cons ?_ (.cons ?_ (.cons ?_ (.cons ?_ (.cons ?_ (.cons ?_ (.cons ?_ (.cons ?_ (.cons ?_ (.cons ?_ (.cons ?_ (.cons ?_ (.cons ?_ (.cons ?_ (.cons ?_ (.cons ?_ (.cons ?_ (.cons ?_ (.cons ?_ (.cons ?_ (.cons ?_ (.cons ?_ (.cons ?_ (.cons ?_ (.cons ?_ (.cons ?_ (.cons ?_ (.cons ?_ (.cons ?_ .nil))))))))))))))))))))))))))))))))))))))
  all_goals simp only [rule, apply_ite Prod.fst]
  all_goals split_ifs <;> first | omega | simp_all

theorem score_mono_flag_cancer_history (areas : List String) (ans : Answers)
    (scr : ScreeningAnswers) :
    (assessRiskLevel ⟨areas, { ans with screening_questions := some scr }⟩).riskScore ≤
    (assessRiskLevel ⟨areas, { ans with screening_questions := some { scr with cancer_history := some "yes" } }⟩).riskScore := by
  have hlen : (checkRedFlags ⟨areas, { ans with screening_questions := some scr }⟩).length ≤
      (checkRedFlags ⟨areas, { ans with screening_questions := some { scr with cancer_history := some "yes" } }⟩).length := by
    apply checkRedFlags_length_le
    intro q hq
    fin_cases hq <;> simp [ScreeningAnswers.get]
  apply score_le_of_rules
  simp only [ruleList, Option.getD_some, Option.getD_none]
  refine .cons ?_ (.cons ?_ (.cons ?_ (.cons ?_ (.cons ?_ (.cons ?_ (.cons ?_ (.cons ?_ (.cons ?_ (.cons ?_ (.cons ?_ (.cons ?_ (.cons ?_ (.cons ?_ (.cons ?_ (.cons ?_ (.cons ?_ (.cons ?_ (.cons ?_ (.cons ?_ (.cons ?_ (.cons ?_ (.cons ?_ (.cons ?_ (.cons ?_ (.cons ?_ (.cons ?_ (.cons ?_ (.cons ?_ (.cons ?_ (.cons ?_ (.cons ?_ (.cons ?_ (.cons ?_ (.cons ?_ (.cons ?_ (.cons ?_ (.cons ?_ (.cons ?_ .nil))))))))))))))))))))))))))))))))))))))
  all_goals simp only [rule, apply_ite Prod.fst]
  all_goals split_ifs <;> first | omega | simp_all

theorem score_mono_flag_general_symptoms (areas : List String) (ans : Answers)
    (scr : ScreeningAnswers) :
    (assessRiskLevel ⟨areas, { ans with screening_questions := some scr }⟩).riskScore ≤
    (assessRiskLevel ⟨areas, { ans with screening_questions := some { scr with general_symptoms := some "yes" } }⟩).riskScore := by
  have hlen : (checkRedFlags ⟨areas, { ans with screening_questions := some scr }⟩).length ≤
      (checkRedFlags ⟨areas, { ans with screening_questions := some { scr with general_symptoms := some "yes" } }⟩).length := by
    apply checkRedFlags_length_le
    intro q hq
    fin_cases hq <;> simp [ScreeningAnswers.get]
  apply score_le_of_rules
  simp only [ruleList, Option.getD_some, Option.getD_none]
  refine .cons ?_ (.cons ?_ (.cons ?_ (.cons ?_ (.cons ?_ (.cons ?_ (.cons ?_ (.cons ?_ (.cons ?_ (.cons ?_ (.cons ?_ (.cons ?_ (.cons ?_ (.cons ?_ (.cons ?_ (.cons ?_ (.cons ?_ (.cons ?_ (.cons ?_ (.cons ?_ (.cons ?_ (.cons ?_ (.cons ?_ (.cons ?_ (.cons ?_ (.cons ?_ (.cons ?_ (.cons ?_ (.cons ?_ (.cons ?_ (.cons ?_ (.cons ?_ (.cons ?_ (.cons ?_ (.cons ?_ (.cons ?_ (.cons ?_ (.cons ?_ (.cons ?_ .nil))))))))))))))))))))))))))))))))))))))
  all_goals simp only [rule, apply_ite Prod.fst]
  all_goals split_ifs <;> first | omega | simp_all

theorem score_mono_flag_night_pain (areas : List String) (ans : Answers)
    (scr : ScreeningAnswers) :
    (assessRiskLevel ⟨areas, { ans with screening_questions := some scr }⟩).riskScore ≤
    (assessRiskLevel ⟨areas, { ans with screening_questions := some { scr with night_pain := some "yes" } }⟩).riskScore := by
  have hlen : (checkRedFlags ⟨areas, { ans with screening_questions := some scr }⟩).length ≤
      (checkRedFlags ⟨areas, { ans with screening_questions := some { scr with night_pain := some "yes" } }⟩).length := by
    apply checkRedFlags_length_le
    intro q hq
    fin_cases hq <;> simp [ScreeningAnswers.get]
  apply score_le_of_rules
  simp only [ruleList, Option.getD_some, Option.getD_none]
  refine .cons ?_ (.cons ?_ (.cons ?_ (.cons ?_ (.cons ?_ (.cons ?_ (.cons ?_ (.cons ?_ (.cons ?_ (.cons ?_ (.cons ?_ (.cons ?_ (.cons ?_ (.cons ?_ (.cons ?_ (.cons ?_ (.cons ?_ (.cons ?_ (.cons ?_ (.cons ?_ (.cons ?_ (.cons ?_ (.cons ?_ (.cons ?_ (.cons ?_ (.cons ?_ (.cons ?_ (.cons ?_ (.cons ?_ (.cons ?_ (.cons ?_ (.cons ?_ (.cons ?_ (.cons ?_ (.cons ?_ (.cons ?_ (.cons ?_ (.cons ?_ (.cons ?_ .nil))))))))))))))))))))))))))))))))))))))
  all_goals simp only [rule, apply_ite Prod.fst]
  all_goals split_ifs <;> first | omega | simp_all

theorem score_mono_flag_weight_bearing (areas : List String) (ans : Answers)
    (scr : ScreeningAnswers) :
    (assessRiskLevel ⟨areas, { ans with screening_questions := some scr }⟩).riskScore ≤
    (assessRiskLevel ⟨areas, { ans with screening_questions := some { scr with weight_bearing := some "yes" } }⟩).riskScore := by
  have hlen : (checkRedFlags ⟨areas, { ans with screening_questions := some scr }⟩).length ≤
      (checkRedFlags ⟨areas, { ans with screening_questions := some { scr with weight_bearing := some "yes" } }⟩).length := by
    apply checkRedFlags_length_le
    intro q hq
    fin_cases hq <;> simp [ScreeningAnswers.get]
  apply score_le_of_rules
  simp only [ruleList, Option.getD_some, Option.getD_none]
  refine .cons ?_ (.cons ?_ (.cons ?_ (.cons ?_ (.cons ?_ (.cons ?_ (.cons ?_ (.cons ?_ (.cons ?_ (.cons ?_ (.cons ?_ (.cons ?_ (.cons ?_ (.cons ?_ (.cons ?_ (.cons ?_ (.cons ?_ (.cons ?_ (.cons ?_ (.cons ?_ (.cons ?_ (.cons ?_ (.cons ?_ (.cons ?_ (.cons ?_ (.cons ?_ (.cons ?_ (.cons ?_ (.cons ?_ (.cons ?_ (.cons ?_ (.cons ?_ (.cons ?_ (.cons ?_ (.cons ?_ (.cons ?_ (.cons ?_ (.cons ?_ (.cons ?_ .nil))))))))))))))))))))))))))))))))))))))
  all_goals simp only [rule, apply_ite Prod.fst]
  all_goals split_ifs <;> first | omega | simp_all

theorem score_mono_flag_neurological_symptoms (areas : List String) (ans : Answers)
    (scr : ScreeningAnswers) :
    (assessRiskLevel ⟨areas, { ans with screening_questions := some scr }⟩).riskScore ≤
    (assessRiskLevel ⟨areas, { ans with screening_questions := some { scr with neurological_symptoms := some "yes" } }⟩).riskScore := by
  have hlen : (checkRedFlags ⟨areas, { ans with screening_questions := some scr }⟩).length ≤
      (checkRedFlags ⟨areas, { ans with screening_questions := some { scr with neurological_symptoms := some "yes" } }⟩).length := by
    apply checkRedFlags_length_le
    intro q hq
    fin_cases hq <;> simp [ScreeningAnswers.get]
  apply score_le_of_rules
  simp only [ruleList, Option.getD_some, Option.getD_none]
  refine .cons ?_ (.cons ?_ (.cons ?_ (.cons ?_ (.cons ?_ (.cons ?_ (.cons ?_ (.cons ?_ (.cons ?_ (.cons ?_ (.cons ?_ (.cons ?_ (.cons ?_ (.cons ?_ (.cons ?_ (.cons ?_ (.cons ?_ (.cons ?_ (.cons ?_ (.cons ?_ (.cons ?_ (.cons ?_ (.cons ?_ (.cons ?_ (.cons ?_ (.cons ?_ (.cons ?_ (.cons ?_ (.cons ?_ (.cons ?_ (.cons ?_ (.cons ?_ (.cons ?_ (.cons ?_ (.cons ?_ (.cons ?_ (.cons ?_ (.cons ?_ (.cons ?_ .nil))))))))))))))))))))))))))))))))))))))
  all_goals simp only [rule, apply_ite Prod.fst]
  all_goals split_ifs <;> first | omega | simp_all

theorem score_mono_flag_bowel_bladder (areas : List String) (ans : Answers)
    (scr : ScreeningAnswers) :
    (assessRiskLevel ⟨areas, { ans with screening_questions := some scr }⟩).riskScore ≤
    (assessRiskLevel ⟨areas, { ans with screening_questions := some { scr with bowel_bladder := some "yes" } }⟩).riskScore := by
  have hlen : (checkRedFlags ⟨areas, { ans with screening_questions := some scr }⟩).length ≤
      (checkRedFlags ⟨areas, { ans with screening_questions := some { scr with bowel_bladder := some "yes" } }⟩).length := by
    apply checkRedFlags_length_le
    intro q hq
    fin_cases hq <;> simp [ScreeningAnswers.get]
  apply score_le_of_rules
  simp only [ruleList, Option.getD_some, Option.getD_none]
  refine .cons ?_ (.cons ?_ (.cons ?_ (.cons ?_ (.cons ?_ (.cons ?_ (.cons ?_ (.cons ?_ (.cons ?_ (.cons ?_ (.cons ?_ (.cons ?_ (.cons ?_ (.cons ?_ (.cons ?_ (.cons ?_ (.cons ?_ (.cons ?_ (.cons ?_ (.cons ?_ (.cons ?_ (.cons ?_ (.cons ?_ (.cons ?_ (.cons ?_ (.cons ?_ (.cons ?_ (.cons ?_ (.cons ?_ (.cons ?_ (.cons ?_ (.cons ?_ (.cons ?_ (.cons ?_ (.cons ?_ (.cons ?_ (.cons ?_ (.cons ?_ (.cons ?_ .nil))))))))))))))))))))))))))))))))))))))
  all_goals simp only [rule, apply_ite Prod.fst]
  all_goals split_ifs <;> first | omega | simp_all

theorem score_mono_flag_fever (areas : List String) (ans : Answers)
    (scr : ScreeningAnswers) :
    (assessRiskLevel ⟨areas, { ans with screening_questions := some scr }⟩).riskScore ≤
    (assessRiskLevel ⟨areas, { ans with screening_questions := some { scr with fever := some "yes" } }⟩).riskScore := by
  have hlen : (checkRedFlags ⟨areas, { ans with screening_questions := some scr }⟩).length ≤
      (checkRedFlags ⟨areas, { ans with screening_questions := some { scr with fever := some "yes" } }⟩).length := by
    apply checkRedFlags_length_le
    intro q hq
    fin_cases hq <;> simp [ScreeningAnswers.get]
  apply score_le_of_rules
  simp only [ruleList, Option.getD_some, Option.getD_none]
  refine .cons ?_ (.cons ?_ (.cons ?_ (.cons ?_ (.cons ?_ (.cons ?_ (.cons ?_ (.cons ?_ (.cons ?_ (.cons ?_ (.cons ?_ (.cons ?_ (.cons ?_ (.cons ?_ (.cons ?_ (.cons ?_ (.cons ?_ (.cons ?_ (.cons ?_ (.cons ?_ (.cons ?_ (.cons ?_ (.cons ?_ (.cons ?_ (.cons ?_ (.cons ?_ (.cons ?_ (.cons ?_ (.cons ?_ (.cons ?_ (.cons ?_ (.cons ?_ (.cons ?_ (.cons ?_ (.cons ?_ (.cons ?_ (.cons ?_ (.cons ?_ (.cons ?_ .nil))))))))))))))))))))))))))))))))))))))
  all_goals simp only [rule, apply_ite Prod.fst]
  all_goals split_ifs <;> first | omega | simp_all

theorem score_mono_flag_accident_cause (areas : List String) (ans : Answers)
    (scr : ScreeningAnswers) :
    (assessRiskLevel ⟨areas, { ans with screening_questions := some scr }⟩).riskScore ≤
    (assessRiskLevel ⟨areas, { ans with screening_questions := some { scr with accident_cause := some "yes" } }⟩).riskScore := by
  have hlen : (checkRedFlags ⟨areas, { ans with screening_questions := some scr }⟩).length ≤
      (checkRedFlags ⟨areas, { ans with screening_questions := some { scr with accident_cause := some "yes" } }⟩).length := by
    apply checkRedFlags_length_le
    intro q hq
    fin_cases hq <;> simp [ScreeningAnswers.get]
  apply score_le_of_rules
  simp only [ruleList, Option.getD_some, Option.getD_none]
  refine .cons ?_ (.cons ?_ (.cons ?_ (.cons ?_ (.cons ?_ (.cons ?_ (.cons ?_ (.cons ?_ (.cons ?_ (.cons ?_ (.cons ?_ (.cons ?_ (.cons ?_ (.cons ?_ (.cons ?_ (.cons ?_ (.cons ?_ (.cons ?_ (.cons ?_ (.cons ?_ (.cons ?_ (.cons ?_ (.cons ?_ (.cons ?_ (.cons ?_ (.cons ?_ (.cons ?_ (.cons ?_ (.cons ?_ (.cons ?_ (.cons ?_ (.cons ?_ (.cons ?_ (.cons ?_ (.cons ?_ (.cons ?_ (.cons ?_ (.cons ?_ (.cons ?_ .nil))))))))))))))))))))))))))))))))))))))
  all_goals simp only [rule, apply_ite Prod.fst]
  all_goals split_ifs <;> first | omega | simp_all

theorem score_mono_flag_previous_injuries (areas : List String) (ans : Answers)
    (med : MedicalAnswers) :
    (assessRiskLevel ⟨areas, { ans with medical_history := some med }⟩).riskScore ≤
    (assessRiskLevel ⟨areas, { ans with medical_history := some { med with previous_injuries := some "yes" } }⟩).riskScore := by
  have hlen : (checkRedFlags ⟨areas, { ans with medical_history := some med }⟩).length ≤
      (checkRedFlags ⟨areas, { ans with medical_history := some { med with previous_injuries := some "yes" } }⟩).length := by
    apply checkRedFlags_length_le
    intro q hq
    fin_cases hq <;> simp [ScreeningAnswers.get]
  apply score_le_of_rules
  simp only [ruleList, Option.getD_some, Option.getD_none]
  refine .cons ?_ (.cons ?_ (.cons ?_ (.cons ?_ (.cons ?_ (.cons ?_ (.cons ?_ (.cons ?_ (.cons ?_ (.cons ?_ (.cons ?_ (.cons ?_ (.cons ?_ (.cons ?_ (.cons ?_ (.cons ?_ (.cons ?_ (.cons ?_ (.cons ?_ (.cons ?_ (.cons ?_ (.cons ?_ (.cons ?_ (.cons ?_ (.cons ?_ (.cons ?_ (.cons ?_ (.cons ?_ (.cons ?_ (.cons ?_ (.cons ?_ (.cons ?_ (.cons ?_ (.cons ?_ (.cons ?_ (.cons ?_ (.cons ?_ (.cons ?_ (.cons ?_ .nil))))))))))))))))))))))))))))))))))))))
  all_goals simp only [rule, apply_ite Prod.fst]
  all_goals split_ifs <;> first | omega | simp_all

theorem score_mono_flag_medications (areas : List String) (ans : Answers)
    (med : MedicalAnswers) :
    (assessRiskLevel ⟨areas, { ans with medical_history := some med }⟩).riskScore ≤
    (assessRiskLevel ⟨areas, { ans with medical_history := some { med with medications := some "yes" } }⟩).riskScore := by
  have hlen : (checkRedFlags ⟨areas, { ans with medical_history := some med }⟩).length ≤
      (checkRedFlags ⟨areas, { ans with medical_history := some { med with medications := some "yes" } }⟩).length := by
    apply checkRedFlags_length_le
    intro q hq
    fin_cases hq <;> simp [ScreeningAnswers.get]
  apply score_le_of_rules
  simp only [ruleList, Option.getD_some, Option.getD_none]
  refine .cons ?_ (.cons ?_ (.cons ?_ (.cons ?_ (.cons ?_ (.cons ?_ (.cons ?_ (.cons ?_ (.cons ?_ (.cons ?_ (.cons ?_ (.cons ?_ (.cons ?_ (.cons ?_ (.cons ?_ (.cons ?_ (.cons ?_ (.cons ?_ (.cons ?_ (.cons ?_ (.cons ?_ (.cons ?_ (.cons ?_ (.cons ?_ (.cons ?_ (.cons ?_ (.cons ?_ (.cons ?_ (.cons ?_ (.cons ?_ (.cons ?_ (.cons ?_ (.cons ?_ (.cons ?_ (.cons ?_ (.cons ?_ (.cons ?_ (.cons ?_ (.cons ?_ .nil))))))))))))))))))))))))))))))))))))))
  all_goals simp only [rule, apply_ite Prod.fst]
  all_goals split_ifs <;> first | omega | simp_all

theorem score_mono_flag_assistance_needed (areas : List String) (ans : Answers)
    (fn : FunctionalAnswers) :
    (assessRiskLevel ⟨areas, { ans with functional_assessment := some fn }⟩).riskScore ≤
    (assessRiskLevel ⟨areas, { ans with functional_assessment := some { fn with assistance_needed := some "yes" } }⟩).riskScore := by
  have hlen : (checkRedFlags ⟨areas, { ans with functional_assessment := some fn }⟩).length ≤
      (checkRedFlags ⟨areas, { ans with functional_assessment := some { fn with assistance_needed := some "yes" } }⟩).length := by
    apply checkRedFlags_length_le
    intro q hq
    fin_cases hq <;> simp [ScreeningAnswers.get]
  apply score_le_of_rules
  simp only [ruleList, Option.getD_some, Option.getD_none]
  refine .cons ?_ (.cons ?_ (.cons ?_ (.cons ?_ (.cons ?_ (.cons ?_ (.cons ?_ (.cons ?_ (.cons ?_ (.cons ?_ (.cons ?_ (.cons ?_ (.cons ?_ (.cons ?_ (.cons ?_ (.cons ?_ (.cons ?_ (.cons ?_ (.cons ?_ (.cons ?_ (.cons ?_ (.cons ?_ (.cons ?_ (.cons ?_ (.cons ?_ (.cons ?_ (.cons ?_ (.cons ?_ (.cons ?_ (.cons ?_ (.cons ?_ (.cons ?_ (.cons ?_ (.cons ?_ (.cons ?_ (.cons ?_ (.cons ?_ (.cons ?_ (.cons ?_ .nil))))))))))))))))))))))))))))))))))))))
  all_goals simp only [rule, apply_ite Prod.fst]
  all_goals split_ifs <;> first | omega | simp_all

/-- C4: monotonicity — raising the pain level, adding values to any of the
five multi-select fields (pain pattern, pain type, movement patterns,
avoided activities, body areas), or switching any yes/no flag (the ten
red-flag screening answers, accident cause, previous injuries, medications,
assistance needed) to `"yes"` never decreases the score. -/
theorem c4_monotonicity (areas areas' : List String) (ans : Answers)
    (sym : SymptomAnswers) (fn : FunctionalAnswers) (med : MedicalAnswers)
    (scr : ScreeningAnswers) (p q : Nat) (hpq : p ≤ q)
    (l l' : List String) (hl : l ⊆ l') (ha : areas ⊆ areas') :
    ((assessRiskLevel ⟨areas,
        { ans with symptom_onset := some { sym with pain_level := some p } }⟩).riskScore ≤
      (assessRiskLevel ⟨areas,
        { ans with symptom_onset := some { sym with pain_level := some q } }⟩).riskScore) ∧
    ((assessRiskLevel ⟨areas,
        { ans with symptom_onset := some { sym with pain_pattern := some l } }⟩).riskScore ≤
      (assessRiskLevel ⟨areas,
        { ans with symptom_onset := some { sym with pain_pattern := some l' } }⟩).riskScore) ∧
    ((assessRiskLevel ⟨areas,
        { ans with symptom_onset := some { sym with pain_type := some l } }⟩).riskScore ≤
      (assessRiskLevel ⟨areas,
        { ans with symptom_onset := some { sym with pain_type := some l' } }⟩).riskScore) ∧
    ((assessRiskLevel ⟨areas,
        { ans with functional_assessment := some { fn with movement_patterns := some l } }⟩).riskScore ≤
      (assessRiskLevel ⟨areas,
        { ans with functional_assessment := some { fn with movement_patterns := some l' } }⟩).riskScore) ∧
    ((assessRiskLevel ⟨areas,
        { ans with functional_assessment := some { fn with activities_avoided := some l } }⟩).riskScore ≤
      (assessRiskLevel ⟨areas,
        { ans with functional_assessment := some { fn with activities_avoided := some l' } }⟩).riskScore) ∧
    ((assessRiskLevel ⟨areas, ans⟩).riskScore ≤
      (assessRiskLevel ⟨areas', ans⟩).riskScore) ∧
    ((assessRiskLevel ⟨areas, { ans with screening_questions := some scr }⟩).riskScore ≤
      (assessRiskLevel ⟨areas,
        { ans with screening_questions := some { scr with weight_loss := some "yes" } }⟩).riskScore) ∧
    ((assessRiskLevel ⟨areas, { ans with screening_questions := some scr }⟩).riskScore ≤
      (assessRiskLevel ⟨areas,
        { ans with screening_questions := some { scr with corticosteroids := some "yes" } }⟩).riskScore) ∧
    ((assessRiskLevel ⟨areas, { ans with screening_questions := some scr }⟩).riskScore ≤
      (assessRiskLevel ⟨areas,
        { ans with screening_questions := some { scr with constant_pain := some "yes" } }⟩).riskScore) ∧
    ((assessRiskLevel ⟨areas, { ans with screening_questions := some scr }⟩).riskScore ≤
      (assessRiskLevel ⟨areas,
        { ans with screening_questions := some { scr with cancer_history := some "yes" } }⟩).riskScore) ∧
    ((assessRiskLevel ⟨areas, { ans with screening_questions := some scr }⟩).riskScore ≤
      (assessRiskLevel ⟨areas,
        { ans with screening_questions := some { scr with general_symptoms := some "yes" } }⟩).riskScore) ∧
    ((assessRiskLevel ⟨areas, { ans with screening_questions := some scr }⟩).riskScore ≤
      (assessRiskLevel ⟨areas,
        { ans with screening_questions := some { scr with night_pain := some "yes" } }⟩).riskScore) ∧
    ((assessRiskLevel ⟨areas, { ans with screening_questions := some scr }⟩).riskScore ≤
      (assessRiskLevel ⟨areas,
        { ans with screening_questions := some { scr with weight_bearing := some "yes" } }⟩).riskScore) ∧
    ((assessRiskLevel ⟨areas, { ans with screening_questions := some scr }⟩).riskScore ≤
      (assessRiskLevel ⟨areas,
        { ans with screening_questions := some { scr with neurological_symptoms := some "yes" } }⟩).riskScore) ∧
    ((assessRiskLevel ⟨areas, { ans with screening_questions := some scr }⟩).riskScore ≤
      (assessRiskLevel ⟨areas,
        { ans with screening_questions := some { scr with bowel_bladder := some "yes" } }⟩).riskScore) ∧
    ((assessRiskLevel ⟨areas, { ans with screening_questions := some scr }⟩).riskScore ≤
      (assessRiskLevel ⟨areas,
        { ans with screening_questions := some { scr with fever := some "yes" } }⟩).riskScore) ∧
    ((assessRiskLevel ⟨areas, { ans with screening_questions := some scr }⟩).riskScore ≤
      (assessRiskLevel ⟨areas,
        { ans with screening_questions := some { scr with accident_cause := some "yes" } }⟩).riskScore) ∧
    ((assessRiskLevel ⟨areas, { ans with medical_history := some med }⟩).riskScore ≤
      (assessRiskLevel ⟨areas,
        { ans with medical_history := some { med with previous_injuries := some "yes" } }⟩).riskScore) ∧
    ((assessRiskLevel ⟨areas, { ans with medical_history := some med }⟩).riskScore ≤
      (assessRiskLevel ⟨areas,
        { ans with medical_history := some { med with medications := some "yes" } }⟩).riskScore) ∧
    ((assessRiskLevel ⟨areas, { ans with functional_assessment := some fn }⟩).riskScore ≤
      (assessRiskLevel ⟨areas,
        { ans with functional_assessment := some { fn with assistance_needed := some "yes" } }⟩).riskScore) :=
  ⟨score_mono_painLevel areas ans sym p q hpq,
   score_mono_painPattern areas ans sym l l' hl,
   score_mono_painType areas ans sym l l' hl,
   score_mono_movementPatterns areas ans fn l l' hl,
   score_mono_activitiesAvoided areas ans fn l l' hl,
   score_mono_bodyAreas areas areas' ans ha,
   score_mono_flag_weight_loss areas ans scr,
   score_mono_flag_corticosteroids areas ans scr,
   score_mono_flag_constant_pain areas ans scr,
   score_mono_flag_cancer_history areas ans scr,
   score_mono_flag_general_symptoms areas ans scr,
   score_mono_flag_night_pain areas ans scr,
   score_mono_flag_weight_bearing areas ans scr,
   score_mono_flag_neurological_symptoms areas ans scr,
   score_mono_flag_bowel_bladder areas ans scr,
   score_mono_flag_fever areas ans scr,
   score_mono_flag_accident_cause areas ans scr,
   score_mono_flag_previous_injuries areas ans med,
   score_mono_flag_medications areas ans med,
   score_mono_flag_assistance_needed areas ans fn⟩

/-- Witness for C4 at concrete inputs: pain 2 vs 9 on otherwise empty data. -/
theorem c4_monotonicity_witness :
    (2 ≤ 9) ∧ (([] : List String) ⊆ ["Constant"]) ∧
      (([] : List String) ⊆ ["lower_back"]) ∧
      ((assessRiskLevel ⟨[],
          { symptom_onset := some { pain_level := some 2 } }⟩).riskScore ≤
        (assessRiskLevel ⟨[],
          { symptom_onset := some { pain_level := some 9 } }⟩).riskScore) :=
  ⟨by omega, List.nil_subset _, List.nil_subset _,
   (c4_monotonicity [] ["lower_back"] {} {} {} {} {} 2 9 (by omega)
     [] ["Constant"] (List.nil_subset _) (List.nil_subset _)).1⟩

/-- Witness for C2's conditional part at the fever-only answer set. -/
theorem c2_red_flag_weight_witness :
    checkRedFlags feverOnly ≠ [] ∧
    (assessRiskLevel feverOnly).riskFactors =
      ("Red flags: " ++ String.intercalate ", " (checkRedFlags feverOnly)) ::
        restFactors feverOnly :=
  ⟨by decide, (c2_red_flag_weight feverOnly).2.1 (by decide)⟩

/-- C7: with `knee_left` selected and assistance needed, the joint-specific
assistance rule (+2) and the generic assistance rule (+4) both fire, a
combined +6 over the same answers with the assistance answer absent. -/
theorem c7_both_assistance_rules (areas : List String) (ans : Answers)
    (fn : FunctionalAnswers) (h : "knee_left" ∈ areas) :
    "Joint requiring assistance" ∈ (assessRiskLevel ⟨areas,
      { ans with functional_assessment := some { fn with assistance_needed := some "yes" } }⟩).riskFactors ∧
    "Requires assistance with daily activities" ∈ (assessRiskLevel ⟨areas,
      { ans with functional_assessment := some { fn with assistance_needed := some "yes" } }⟩).riskFactors ∧
    (assessRiskLevel ⟨areas,
      { ans with functional_assessment := some { fn with assistance_needed := some "yes" } }⟩).riskScore =
    (assessRiskLevel ⟨areas,
      { ans with functional_assessment := some { fn with assistance_needed := none } }⟩).riskScore + 6 := by
  have hj : areas.any (fun area => jointAreas.contains area) = true :=
    List.any_eq_true.mpr ⟨"knee_left", h, by decide⟩
  have hj' : ∃ x ∈ areas, x ∈ jointAreas := ⟨"knee_left", h, by decide⟩
  refine ⟨?_, ?_, ?_⟩
  · rw [assessRiskLevel_eq]
    simp [ruleList, rule, hj']
  · rw [assessRiskLevel_eq]
    simp [ruleList, rule, hj']
  · have hrf : checkRedFlags ⟨areas,
        { ans with functional_assessment := some { fn with assistance_needed := some "yes" } }⟩ =
        checkRedFlags ⟨areas,
        { ans with functional_assessment := some { fn with assistance_needed := none } }⟩ := rfl
    rw [assessRiskLevel_eq, assessRiskLevel_eq]
    simp only [ruleList, rule, List.map_cons, List.map_nil,
      List.sum_cons, List.sum_nil, apply_ite Prod.fst, Option.getD_some,
      Option.getD_none, hj, Bool.true_and, hrf]
    simp only [beq_iff_eq, reduceCtorEq, reduceIte, if_false]
    omega

/-- Witness for C7 at the concrete knee-and-assistance answer set. -/
theorem c7_both_assistance_rules_witness :
    "knee_left" ∈ ["knee_left"] ∧
    "Joint requiring assistance" ∈ (assessRiskLevel ⟨["knee_left"],
      { functional_assessment := some { assistance_needed := some "yes" } }⟩).riskFactors :=
  ⟨by decide,
   (c7_both_assistance_rules ["knee_left"] {} {} (by decide)).1⟩

/-- C8: a duration string outside the four catalog values contributes
nothing — scoring is identical to the same answers with duration absent,
whatever the other fields are. -/
theorem c8_unrecognized_duration (areas : List String) (ans : Answers)
    (sym : SymptomAnswers) (s : String)
    (h : s ∉ ["More than 6 months", "3-6 months", "1-3 months", "1-4 weeks"]) :
    assessRiskLevel ⟨areas,
      { ans with symptom_onset := some { sym with duration := some s } }⟩ =
    assessRiskLevel ⟨areas,
      { ans with symptom_onset := some { sym with duration := none } }⟩ := by
  simp only [List.mem_cons, List.not_mem_nil, or_false, not_or] at h
  obtain ⟨h1, h2, h3, h4⟩ := h
  simp only [assessRiskLevel, ruleList, checkRedFlags, Option.getD_some,
    Option.getD_none, Option.some.injEq, h1, h2, h3, h4, if_false,
    reduceCtorEq]

/-- Witness for C8 at the non-catalog duration string `"2 months"`. -/
theorem c8_unrecognized_duration_witness :
    "2 months" ∉ ["More than 6 months", "3-6 months", "1-3 months", "1-4 weeks"] ∧
    assessRiskLevel ⟨[], { symptom_onset := some { duration := some "2 months" } }⟩ =
      assessRiskLevel ⟨[], { symptom_onset := some { duration := none } }⟩ :=
  ⟨by decide, c8_unrecognized_duration [] {} {} "2 months" (by decide)⟩

/-- C10: listing a body area a second time changes nothing — every body-area
rule tests membership only, so score, level and factors are unchanged. -/
theorem c10_duplicate_body_area (ans : Answers) (l₁ l₂ : List String)
    (a : String) (h : a ∈ l₁ ++ l₂) :
    assessRiskLevel ⟨l₁ ++ a :: l₂, ans⟩ = assessRiskLevel ⟨l₁ ++ l₂, ans⟩ := by
  have hmem : ∀ x : String, x ∈ l₁ ++ a :: l₂ ↔ x ∈ l₁ ++ l₂ := by
    intro x
    simp only [List.mem_append, List.mem_cons]
    constructor
    · rintro (hx | rfl | hx)
      · exact Or.inl hx
      · simpa using h
      · exact Or.inr hx
    · rintro (hx | hx)
      · exact Or.inl hx
      · exact Or.inr (Or.inr hx)
  have hany : ∀ p : String → Bool, (l₁ ++ a :: l₂).any p = (l₁ ++ l₂).any p := by
    intro p
    rw [Bool.eq_iff_iff]
    simp only [List.any_eq_true]
    constructor
    · rintro ⟨x, hx, hp⟩
      exact ⟨x, (hmem x).mp hx, hp⟩
    · rintro ⟨x, hx, hp⟩
      exact ⟨x, (hmem x).mpr hx, hp⟩
  simp only [assessRiskLevel, ruleList, checkRedFlags, Option.getD_some,
    Option.getD_none, hany]

/-- Witness for C10: duplicating `knee_left` leaves the result unchanged. -/
theorem c10_duplicate_body_area_witness :
    "knee_left" ∈ ["knee_left"] ++ ([] : List String) ∧
    assessRiskLevel ⟨["knee_left"] ++ "knee_left" :: ([] : List String), {}⟩ =
      assessRiskLevel ⟨["knee_left"] ++ ([] : List String), {}⟩ :=
  ⟨by decide, c10_duplicate_body_area {} ["knee_left"] [] "knee_left" (by decide)⟩

theorem perm_contains {l l' : List String} (h : l.Perm l') (a : String) :
    l.contains a = l'.contains a := by
  rw [Bool.eq_iff_iff]
  constructor
  · intro hc
    exact List.elem_iff.mpr (h.mem_iff.mp (List.elem_iff.mp hc))
  · intro hc
    exact List.elem_iff.mpr (h.mem_iff.mpr (List.elem_iff.mp hc))

theorem perm_any {l l' : List String} (h : l.Perm l') (p : String → Bool) :
    l.any p = l'.any p := by
  rw [Bool.eq_iff_iff]
  simp only [List.any_eq_true]
  constructor
  · rintro ⟨x, hx, hp⟩
    exact ⟨x, h.mem_iff.mp hx, hp⟩
  · rintro ⟨x, hx, hp⟩
    exact ⟨x, h.mem_iff.mpr hx, hp⟩

/-- C5: permuting any of the array-valued fields (body areas, pain pattern,
pain type, movement patterns, avoided activities, surgery history, chronic
conditions) leaves score, level and the factors list — including its
order — unchanged. -/
theorem c5_order_insensitivity (areas areas' : List String) (ans : Answers)
    (sym : SymptomAnswers) (fn : FunctionalAnswers) (med : MedicalAnswers)
    (opp opp' opt opt' omp omp' oav oav' osh osh' occ occ' : Option (List String))
    (hA : areas.Perm areas')
    (hpp : (opp.getD []).Perm (opp'.getD []))
    (hpt : (opt.getD []).Perm (opt'.getD []))
    (hmp : (omp.getD []).Perm (omp'.getD []))
    (hav : (oav.getD []).Perm (oav'.getD []))
    (hsh : (osh.getD []).Perm (osh'.getD []))
    (hcc : (occ.getD []).Perm (occ'.getD [])) :
    assessRiskLevel ⟨areas,
      { ans with
        symptom_onset := some { sym with pain_pattern := opp, pain_type := opt },
        functional_assessment := some { fn with movement_patterns := omp, activities_avoided := oav },
        medical_history := some { med with surgery_history := osh, chronic_conditions := occ } }⟩ =
    assessRiskLevel ⟨areas',
      { ans with
        symptom_onset := some { sym with pain_pattern := opp', pain_type := opt' },
        functional_assessment := some { fn with movement_patterns := omp', activities_avoided := oav' },
        medical_history := some { med with surgery_history := osh', chronic_conditions := occ' } }⟩ := by
  have h1 := perm_contains hpp
  have h2 := perm_contains hpt
  have h3 := perm_contains hmp
  have h4 := perm_contains hav
  have h5 : (osh.getD []).length = (osh'.getD []).length := hsh.length_eq
  have h6 := perm_contains hsh
  have h7 : (occ.getD []).length = (occ'.getD []).length := hcc.length_eq
  have h8 := perm_contains hcc
  have h9 := perm_any hA
  simp only [assessRiskLevel, ruleList, checkRedFlags, Option.getD_some,
    Option.getD_none, h1, h2, h3, h4, h5, h6, h7, h8, h9]

/-- Witness for C5 at concrete permuted inputs. -/
theorem c5_order_insensitivity_witness :
    List.Perm ["lower_back", "neck"] ["neck", "lower_back"] ∧
    List.Perm ["Constant", "At night"] ["At night", "Constant"] ∧
    assessRiskLevel ⟨["lower_back", "neck"],
      { symptom_onset := some { pain_pattern := some ["Constant", "At night"],
                                pain_type := none },
        functional_assessment := some { movement_patterns := none,
                                        activities_avoided := none },
        medical_history := some { surgery_history := none,
                                  chronic_conditions := none } }⟩ =
    assessRiskLevel ⟨["neck", "lower_back"],
      { symptom_onset := some { pain_pattern := some ["At night", "Constant"],
                                pain_type := none },
        functional_assessment := some { movement_patterns := none,
                                        activities_avoided := none },
        medical_history := some { surgery_history := none,
                                  chronic_conditions := none } }⟩ :=
  ⟨by decide, by decide,
   c5_order_insensitivity ["lower_back", "neck"] ["neck", "lower_back"]
     {} {} {} {} (some ["Constant", "At night"]) (some ["At night", "Constant"])
     none none none none none none none none none none
     (by decide) (by decide) (by decide) (by decide) (by decide) (by decide)
     (by decide)⟩

/-- C3: the scorer is total over answer sets with absent groups or fields —
absent groups behave exactly like present groups with every field at its
neutral default, and an absent (or non-numeric) pain level scores like
pain level 0. -/
theorem c3_absent_defaults (areas : List String) (ans : Answers)
    (sym : SymptomAnswers) :
    (processAssessmentData ⟨areas, {}⟩ =
      processAssessmentData ⟨areas,
        { screening_questions := some {}, symptom_onset := some {},
          functional_assessment := some {}, medical_history := some {},
          demographics := some {} }⟩) ∧
    (processAssessmentData ⟨areas,
        { ans with symptom_onset := some { sym with pain_level := none } }⟩ =
      processAssessmentData ⟨areas,
        { ans with symptom_onset := some { sym with pain_level := some 0 } }⟩) :=
  ⟨rfl, rfl⟩
